import Mathlib

set_option maxRecDepth 8192

/-!
Verification development for the NCES school-search resolver
(`nceschools/school_searcher.py`).  The Python code is shallowly embedded:

* Python strings are Lean `String`s; the handful of `str` methods the code
  uses (`strip`, `split(',')`, `split()`, `lower`, `upper`, `replace`) are
  re-implemented structurally over the character list (`py*` functions below)
  so that every definition reduces inside the kernel.
* `requests.get` is modelled by a `Site` map from URL to `Response`
  (a status code plus the already-parsed document).
* BeautifulSoup documents are modelled by `Doc`: the `tr` rows selected for
  the public selector, the rows selected by the private highlight selector,
  the optional href of the `Next >>` anchor, and the outcome of the two
  NCES-id lookup chains used by `extract_nces_school_id`.
* Raised Python exceptions are modelled by `Except Err`.  The unbounded
  next-page recursion of `find_school_url_by_location` (the code has no page
  limit) is modelled with an explicit fuel parameter; exhausting the fuel is
  the distinguished `Err.outOfFuel`, which real executions correspond to
  never reaching for any finite page chain.
-/

/-- ASCII whitespace, as used by Python's `str.strip`/`str.split()`. -/
def pyIsSpace (c : Char) : Bool :=
  c == ' ' || c == '\t' || c == '\n' || c == '\r' || c == '\x0b' || c == '\x0c'

/-- Python `str.strip()`: drop leading and trailing whitespace. -/
def pyStrip (s : String) : String :=
  ⟨((s.data.dropWhile pyIsSpace).reverse.dropWhile pyIsSpace).reverse⟩

/-- Auxiliary scanner for `pySplitComma`; `acc` holds the current segment
reversed. -/
def splitCommaAux : List Char → List Char → List String
  | [], acc => [⟨acc.reverse⟩]
  | c :: rest, acc =>
    if c = ',' then ⟨acc.reverse⟩ :: splitCommaAux rest []
    else splitCommaAux rest (c :: acc)

/-- Python `s.split(',')`: split at every comma, keeping empty segments
(`"".split(',') == ['']`). -/
def pySplitComma (s : String) : List String :=
  splitCommaAux s.data []

/-- Auxiliary scanner for `pySplitWs`. -/
def splitWsAux : List Char → List Char → List String
  | [], [] => []
  | [], acc => [⟨acc.reverse⟩]
  | c :: rest, acc =>
    if pyIsSpace c then
      match acc with
      | [] => splitWsAux rest []
      | _ => ⟨acc.reverse⟩ :: splitWsAux rest []
    else splitWsAux rest (c :: acc)

/-- Python `s.split()` (no argument): split on whitespace runs, discarding
empty tokens (`"".split() == []`). -/
def pySplitWs (s : String) : List String :=
  splitWsAux s.data []

/-- Python `s.lower()` (ASCII range, which is all the code compares). -/
def pyLower (s : String) : String := ⟨s.data.map Char.toLower⟩

/-- Python `s.upper()` (ASCII range). -/
def pyUpper (s : String) : String := ⟨s.data.map Char.toUpper⟩

/-- Python `s.replace(" ", "+")` (single-character pattern, so a map). -/
def pyReplaceSpacePlus (s : String) : String :=
  ⟨s.data.map (fun c => if c = ' ' then '+' else c)⟩

/-- Python negative indexing `l[-k]` on a list of strings, defined only
under the bounds the source code has already checked (out of range yields
`""` here; the source never evaluates it out of range). -/
def pyNeg (l : List String) (k : Nat) : String :=
  l.getD (l.length - k) ""

/-- Python truthiness of an optional string (`None` and `""` are falsy):
this is the meaning of `if city and zip_code and state:` and friends. -/
def truthy : Option String → Bool
  | none => false
  | some s => s != ""

/-- Python `"&".join`-style interleaving. -/
def joinSep (sep : String) : List String → String
  | [] => ""
  | [x] => x
  | x :: y :: rest => x ++ sep ++ joinSep sep (y :: rest)

/-- One `tr` row of a result listing: `href` is the (first) anchor's link
when `entry.find('a', href=True)` finds one, `tds` the text contents of
`entry.find_all('td')`. -/
structure Entry where
  href : Option String
  tds : List String
deriving DecidableEq, Repr

/-- A parsed page, as far as `school_searcher.py` queries it.
`rows` models `soup.select('tr')`, `highlightedRows` models
`soup.select('tr[style*="background-color: #EDFFE8;"]')`, `nextHref` the
href of `soup.find('a', string="Next >>")`.  `publicIdText` models the
public id chain of `extract_nces_school_id`: `none` when the
`NCES School ID:` font label is absent, `some none` when the label is
present but the following `font size="3"` element is not, `some (some t)`
when both are found with raw text `t`; `privateIdText` likewise for the
`strong` label / `br`-sibling chain of the private branch. -/
structure Doc where
  rows : List Entry
  highlightedRows : List Entry
  nextHref : Option String
  publicIdText : Option (Option String)
  privateIdText : Option (Option String)
deriving DecidableEq, Repr

/-- An HTTP response: `requests.get(url)` yields a status code and (once
parsed) a document. -/
structure Response where
  status : Nat
  doc : Doc
deriving Repr

/-- The remote site: what `requests.get` answers for each URL. -/
abbrev Site := String → Response

/-- Exceptions the embedded code can raise. -/
inductive Err where
  /-- `fetch_html_content`'s `raise Exception(...)` on a non-200 status. -/
  | fetchFailed (status : Nat)
  /-- Python `UnboundLocalError` for reading a never-assigned local. -/
  | unboundLocal (varName : String)
  /-- Artefact of the fuel bound on the page recursion (see module header). -/
  | outOfFuel
deriving DecidableEq, Repr

/-- The resolver object: its single instance attribute. -/
structure SchoolSearcher where
  school_type : String
deriving DecidableEq, Repr

/-- `fetch_html_content` (lines 49–54): raise unless status 200, else return
the (parsed) body. -/
def fetch_html_content (site : Site) (full_url : String) : Except Err Doc :=
  let response := site full_url
  if response.status ≠ 200 then .error (.fetchFailed response.status)
  else .ok response.doc

/-- `extract_nces_school_id` (lines 65–79): follow the source-specific label
chain; any break in the chain yields `None`.  The final `.strip()` of each
branch is `pyStrip`. -/
def extract_nces_school_id (st : String) (doc : Doc) : Option String :=
  if st = "public" then
    match doc.publicIdText with
    | some (some t) => some (pyStrip t)
    | _ => none
  else if st = "private" then
    match doc.privateIdText with
    | some (some t) => some (pyStrip t)
    | _ => none
  else none

/-- The fixed query-parameter list of the public search (lines 87–105),
in insertion order. -/
def public_query_params (school_name : String) : List (String × String) :=
  [("Search", "1"), ("InstName", school_name), ("SchoolID", ""),
   ("Address", ""), ("City", ""), ("State", ""), ("Zip", ""), ("Miles", ""),
   ("County", ""), ("PhoneAreaCode", ""), ("Phone", ""),
   ("DistrictName", ""), ("DistrictID", ""), ("SpecificSchlTypes", "all"),
   ("IncGrade", "-1"), ("LoGrade", "-1"), ("HiGrade", "-1")]

/-- The fixed query-parameter list of the private search (lines 111–132). -/
def private_query_params (school_name : String) : List (String × String) :=
  [("Search", "1"), ("SchoolName", school_name), ("SchoolID", ""),
   ("Address", ""), ("City", ""), ("State", ""), ("Zip", ""), ("Miles", ""),
   ("County", ""), ("PhoneAreaCode", ""), ("Phone", ""), ("Religion", ""),
   ("Association", ""), ("SchoolType", ""), ("Coed", ""),
   ("NumOfStudents", ""), ("NumOfStudentsRange", "more"),
   ("IncGrade", "-1"), ("LoGrade", "-1"), ("HiGrade", "-1")]

/-- The public search URL built by `get_school_search_html` (lines 85–107),
including the four `SchoolType` flags. -/
def public_search_url (school_name : String) : String :=
  let school_name := pyReplaceSpacePlus school_name
  "https://nces.ed.gov/ccd/schoolsearch/school_list.asp" ++ "?" ++
    joinSep "&" ((public_query_params school_name).map
      (fun kv => kv.1 ++ "=" ++ kv.2)) ++ "&" ++
    joinSep "&" ["SchoolType=1", "SchoolType=2", "SchoolType=3", "SchoolType=4"]

/-- The private search URL built by `get_school_search_html`
(lines 109–133). -/
def private_search_url (school_name : String) : String :=
  let school_name := pyReplaceSpacePlus school_name
  "https://nces.ed.gov/surveys/pss/privateschoolsearch/school_list.asp" ++ "?" ++
    joinSep "&" ((private_query_params school_name).map
      (fun kv => kv.1 ++ "=" ++ kv.2))

/-- `get_school_search_html` (lines 81–135).  For a `school_type` that is
neither `"public"` nor `"private"` the local `full_url` is never assigned,
so the final `return self.fetch_html_content(full_url)` raises
`UnboundLocalError`. -/
def get_school_search_html (site : Site) (st : String) (school_name : String) :
    Except Err Doc :=
  if st = "public" then fetch_html_content site (public_search_url school_name)
  else if st = "private" then
    fetch_html_content site (private_search_url school_name)
  else .error (.unboundLocal "full_url")

/-- The address dissection of lines 165–173, applied to the already stripped
text of the address cell: split on commas; fewer than two segments means the
row is skipped (`continue`, modelled as `none`); otherwise city is the
stripped `[-2]` segment and the `[-1]` segment is whitespace-split, its
`[-2]`/`[-1]` tokens (when present, else `""`) becoming state and zip. -/
def parse_address (school_address : String) : Option (String × String × String) :=
  let address_parts := pySplitComma school_address
  if address_parts.length < 2 then none
  else
    let school_city :=
      if address_parts.length > 1 then pyStrip (pyNeg address_parts 2) else ""
    let state_zip_parts :=
      if address_parts.length > 0 then pySplitWs (pyStrip (pyNeg address_parts 1))
      else []
    let school_state :=
      if state_zip_parts.length > 1 then pyNeg state_zip_parts 2 else ""
    let school_zip :=
      if state_zip_parts.length > 0 then pyNeg state_zip_parts 1 else ""
    some (school_city, school_state, school_zip)

/-- The row-validity gauntlet of lines 155–173: a row contributes a
candidate `(link, city, state, zip)` only when it has an anchor with a
href, at least two `td` cells (`address_index = 1` for both sources), and
an address that `parse_address` accepts; otherwise the loop `continue`s. -/
def entryCandidate (entry : Entry) : Option (String × String × String × String) :=
  match entry.href with
  | none => none
  | some school_link =>
    if entry.tds.length ≤ 1 then none
    else
      match parse_address (pyStrip (entry.tds.getD 1 "")) with
      | none => none
      | some (school_city, school_state, school_zip) =>
        some (school_link, school_city, school_state, school_zip)

/-- `best_priority > p` where `best_priority` starts as `float('inf')`
(modelled by `none`). -/
def bestPriorityGt : Option Nat → Nat → Bool
  | none, _ => true
  | some b, p => p < b

/-- The ordinal of the single hint rule active for this call, fixed by
which hints are truthy (the `elif` ladder of lines 178–197): state+city=2,
zip=3, city=4, state=5. -/
def activeOrdinal (city zip_code state : Option String) : Option Nat :=
  if truthy state && truthy city then some 2
  else if truthy zip_code then some 3
  else if truthy city then some 4
  else if truthy state then some 5
  else none

/-- Whether a row's parsed fields satisfy the active hint rule's comparison
(case-insensitive for city and state, exact for zip), mirroring the guard
of whichever `elif` branch lines 178–197 select. -/
def rowMatchesRule (city zip_code state : Option String)
    (school_city school_state school_zip : String) : Bool :=
  if truthy state && truthy city then
    pyLower school_city == pyLower (city.getD "") &&
      pyUpper school_state == pyUpper (state.getD "")
  else if truthy zip_code then school_zip == zip_code.getD ""
  else if truthy city then pyLower school_city == pyLower (city.getD "")
  else if truthy state then pyUpper school_state == pyUpper (state.getD "")
  else false

/-- Combined scoring of lines 178–197: the ordinal recorded for a row when
it matches the active rule, `none` when it matches no branch. -/
def scoredOrdinal (city zip_code state : Option String)
    (school_city school_state school_zip : String) : Option Nat :=
  if rowMatchesRule city zip_code state school_city school_state school_zip then
    activeOrdinal city zip_code state
  else none

/-- The all-three comparison of line 176 for a row (false for rows the
gauntlet skips). -/
def entryMatchesAll3 (city zip_code state : Option String) (entry : Entry) :
    Bool :=
  match entryCandidate entry with
  | some (_, school_city, school_state, school_zip) =>
    pyLower school_city == pyLower (city.getD "") &&
      school_zip == zip_code.getD "" &&
      pyUpper school_state == pyUpper (state.getD "")
  | none => false

/-- Outcome of scanning the rows of one listing page. -/
inductive ScanOut where
  /-- The `return f"{base_url}{school_link}"` of line 177. -/
  | early (url : String)
  /-- Loop finished; the final `best_match`. -/
  | noEarly (best_match : Option String)
deriving DecidableEq, Repr

/-- The row loop of lines 154–197, threading `best_match`/`best_priority`
(initially `None`/`inf`).  When city, zip and state are all truthy an exact
triple match returns at once (line 177); otherwise the active hint rule may
record the row as best-so-far when its ordinal strictly beats the current
one. -/
def scan_entries (base_url : String) (city zip_code state : Option String) :
    List Entry → Option String → Option Nat → ScanOut
  | [], best_match, _best_priority => .noEarly best_match
  | entry :: rest, best_match, best_priority =>
    match entryCandidate entry with
    | none => scan_entries base_url city zip_code state rest best_match best_priority
    | some (school_link, school_city, school_state, school_zip) =>
      if truthy city && truthy zip_code && truthy state then
        if pyLower school_city == pyLower (city.getD "") &&
            school_zip == zip_code.getD "" &&
            pyUpper school_state == pyUpper (state.getD "") then
          .early (base_url ++ school_link)
        else scan_entries base_url city zip_code state rest best_match best_priority
      else
        match scoredOrdinal city zip_code state school_city school_state school_zip with
        | some p =>
          if bestPriorityGt best_priority p then
            scan_entries base_url city zip_code state rest
              (some (base_url ++ school_link)) (some p)
          else scan_entries base_url city zip_code state rest best_match best_priority
        | none => scan_entries base_url city zip_code state rest best_match best_priority

/-- The per-source base URL chosen by lines 139–146. -/
def baseUrlFor (st : String) : String :=
  if st = "public" then "https://nces.ed.gov/ccd/schoolsearch/"
  else "https://nces.ed.gov/surveys/pss/privateschoolsearch/"

/-- The per-source row selector chosen by lines 139–146. -/
def selFor (st : String) (doc : Doc) : List Entry :=
  if st = "public" then doc.rows else doc.highlightedRows

/-- `find_school_url_by_location` (lines 137–205).  For an invalid
`school_type` neither branch of lines 139–146 runs and
`soup.select(school_entries_selector)` raises `UnboundLocalError`.  After
the row scan, the `Next >>` link is followed (same hints) exactly when it
exists and `best_match is None`; the recursion is metered by `fuel`. -/
def find_school_url_by_location (site : Site) (st : String)
    (city zip_code state : Option String) : Nat → Doc → Except Err (Option String)
  | 0, _ => .error .outOfFuel
  | fuel + 1, doc =>
    if st = "public" ∨ st = "private" then
      match scan_entries (baseUrlFor st) city zip_code state (selFor st doc)
          none none with
      | .early url => .ok (some url)
      | .noEarly best_match =>
        match doc.nextHref with
        | some href =>
          match best_match with
          | none =>
            match fetch_html_content site (baseUrlFor st ++ href) with
            | .error e => .error e
            | .ok next_page_doc =>
              find_school_url_by_location site st city zip_code state fuel
                next_page_doc
          | some _ => .ok best_match
        | none => .ok best_match
    else .error (.unboundLocal "school_entries_selector")

/-- Outcome of lines 224–229 of `get_nces_id`: fetch the winning detail
page and read the identifier, unless there was no (truthy) detail URL. -/
inductive DetailStep where
  /-- The detail fetch raised. -/
  | raised (e : Err)
  /-- A truthy identifier was extracted: `return nces_code`. -/
  | returned (nces_code : String)
  /-- No truthy URL, or no truthy identifier: fall through to the fallback. -/
  | fallthrough
deriving DecidableEq, Repr

/-- Lines 224–229: `if school_url:` (Python truthiness), fetch it, extract,
and `return nces_code` only when that is truthy. -/
def detail_step (site : Site) (st : String) (school_url : Option String) :
    DetailStep :=
  if truthy school_url then
    match fetch_html_content site (school_url.getD "") with
    | .error e => .raised e
    | .ok doc =>
      let nces_code := extract_nces_school_id st doc
      if truthy nces_code then .returned (nces_code.getD "") else .fallthrough
  else .fallthrough

/-- `get_nces_id` (lines 207–236), with the mutable `self.school_type`
threaded explicitly: the returned `SchoolSearcher` is the object's state
after the call.  When the attempt falls through and the active type is
`"public"`, line 233 mutates the type to `"private"` and line 234 retries
the whole resolution with the same arguments. -/
def get_nces_id (site : Site) (fuel : Nat) (self : SchoolSearcher)
    (school_name : String) (city state zip_code : Option String) :
    Except Err (Option String) × SchoolSearcher :=
  match get_school_search_html site self.school_type school_name with
  | .error e => (.error e, self)
  | .ok doc =>
    match find_school_url_by_location site self.school_type city zip_code state
        fuel doc with
    | .error e => (.error e, self)
    | .ok school_url =>
      match detail_step site self.school_type school_url with
      | .raised e => (.error e, self)
      | .returned nces_code => (.ok (some nces_code), self)
      | .fallthrough =>
        if h : self.school_type = "public" then
          get_nces_id site fuel { self with school_type := "private" }
            school_name city state zip_code
        else (.ok none, self)
termination_by (if self.school_type = "public" then 1 else 0)
decreasing_by simp [h]

/-- A parsed page with no rows, no pagination link and no id labels. -/
def emptyDoc : Doc :=
  { rows := [], highlightedRows := [], nextHref := none,
    publicIdText := none, privateIdText := none }

/-- A site whose every response succeeds with an empty page. -/
def siteEmpty : Site := fun _ => { status := 200, doc := emptyDoc }

/-- A site whose every fetch fails with status 404. -/
def siteNever : Site := fun _ => { status := 404, doc := emptyDoc }

/-- A listing row for a school at `100 Main St, Snellville, GA 30039`. -/
def rowShiloh : Entry :=
  { href := some "school_detail.asp?Search=1&ID=130255001937",
    tds := ["Shiloh High School", "100 Main St, Snellville, GA 30039"] }

/-- A one-row public listing page that still advertises a next page. -/
def docShiloh : Doc :=
  { rows := [rowShiloh], highlightedRows := [], nextHref := some "page2.asp",
    publicIdText := none, privateIdText := none }

/-- A listing row in `Atown, GA 30039`. -/
def rowZipA : Entry :=
  { href := some "a.asp", tds := ["A School", "1 First St, Atown, GA 30039"] }

/-- A second listing row with the same zip in another city and state. -/
def rowZipB : Entry :=
  { href := some "b.asp", tds := ["B School", "2 Second St, Btown, AL 30039"] }

/-- A one-row public listing page with no next link. -/
def docZipA : Doc :=
  { rows := [rowZipA], highlightedRows := [], nextHref := none,
    publicIdText := none, privateIdText := none }

/-- An empty listing page that advertises a next page. -/
def docNext : Doc :=
  { rows := [], highlightedRows := [], nextHref := some "page2.asp",
    publicIdText := none, privateIdText := none }

/-- A site serving the Shiloh listing for the public search URL and failing
every other fetch (in particular every detail-page fetch). -/
def siteDetail404 : Site := fun url =>
  if url = public_search_url "Shiloh High School" then
    { status := 200, doc := docShiloh }
  else { status := 404, doc := emptyDoc }

/-- The score a row contributes under the active (non-all-three) rule,
`none` when the row is skipped or does not match. -/
def entryScored (city zip_code state : Option String) (entry : Entry) :
    Option Nat :=
  match entryCandidate entry with
  | some (_, school_city, school_state, school_zip) =>
    scoredOrdinal city zip_code state school_city school_state school_zip
  | none => none

theorem truthy_some_iff {s : String} : truthy (some s) = true ↔ s ≠ "" := by
  simp [truthy]

theorem scan_skip {base : String} {city zip_code state : Option String}
    {e : Entry} {rest : List Entry} {bm : Option String} {bp : Option Nat}
    (h : entryCandidate e = none) :
    scan_entries base city zip_code state (e :: rest) bm bp =
      scan_entries base city zip_code state rest bm bp := by
  simp only [scan_entries, h]

theorem scan_cons_all3_nomatch {base : String} {city zip_code state : Option String}
    {e : Entry} {rest : List Entry} {bm : Option String} {bp : Option Nat}
    (hall3 : (truthy city && truthy zip_code && truthy state) = true)
    (hm : entryMatchesAll3 city zip_code state e = false) :
    scan_entries base city zip_code state (e :: rest) bm bp =
      scan_entries base city zip_code state rest bm bp := by
  cases hc : entryCandidate e with
  | none => exact scan_skip hc
  | some val =>
    obtain ⟨l, c0, s0, z0⟩ := val
    simp only [entryMatchesAll3, hc] at hm
    simp only [scan_entries, hc, hall3, hm]
    simp

theorem scan_cons_all3_match {base : String} {city zip_code state : Option String}
    {e : Entry} {rest : List Entry} {bm : Option String} {bp : Option Nat}
    {l c0 s0 z0 : String}
    (hall3 : (truthy city && truthy zip_code && truthy state) = true)
    (hc : entryCandidate e = some (l, c0, s0, z0))
    (hm : entryMatchesAll3 city zip_code state e = true) :
    scan_entries base city zip_code state (e :: rest) bm bp =
      .early (base ++ l) := by
  simp only [entryMatchesAll3, hc] at hm
  simp only [scan_entries, hc, hall3, hm]
  simp

theorem scan_cons_scored_none {base : String} {city zip_code state : Option String}
    {e : Entry} {rest : List Entry} {bm : Option String} {bp : Option Nat}
    {l c0 s0 z0 : String}
    (hall3 : (truthy city && truthy zip_code && truthy state) = false)
    (hc : entryCandidate e = some (l, c0, s0, z0))
    (hs : scoredOrdinal city zip_code state c0 s0 z0 = none) :
    scan_entries base city zip_code state (e :: rest) bm bp =
      scan_entries base city zip_code state rest bm bp := by
  simp only [scan_entries, hc, hall3, hs]
  simp

theorem scan_cons_scored_improve {base : String}
    {city zip_code state : Option String}
    {e : Entry} {rest : List Entry} {bm : Option String} {bp : Option Nat}
    {l c0 s0 z0 : String} {p : Nat}
    (hall3 : (truthy city && truthy zip_code && truthy state) = false)
    (hc : entryCandidate e = some (l, c0, s0, z0))
    (hs : scoredOrdinal city zip_code state c0 s0 z0 = some p)
    (hgt : bestPriorityGt bp p = true) :
    scan_entries base city zip_code state (e :: rest) bm bp =
      scan_entries base city zip_code state rest (some (base ++ l)) (some p) := by
  simp only [scan_entries, hc, hall3, hs, hgt]
  simp

theorem scan_cons_scored_keep {base : String}
    {city zip_code state : Option String}
    {e : Entry} {rest : List Entry} {bm : Option String} {bp : Option Nat}
    {l c0 s0 z0 : String} {p : Nat}
    (hall3 : (truthy city && truthy zip_code && truthy state) = false)
    (hc : entryCandidate e = some (l, c0, s0, z0))
    (hs : scoredOrdinal city zip_code state c0 s0 z0 = some p)
    (hgt : bestPriorityGt bp p = false) :
    scan_entries base city zip_code state (e :: rest) bm bp =
      scan_entries base city zip_code state rest bm bp := by
  simp only [scan_entries, hc, hall3, hs, hgt]
  simp

theorem scoredOrdinal_active {city zip_code state : Option String}
    {c0 s0 z0 : String} {p : Nat}
    (h : scoredOrdinal city zip_code state c0 s0 z0 = some p) :
    activeOrdinal city zip_code state = some p := by
  unfold scoredOrdinal at h
  by_cases hr : rowMatchesRule city zip_code state c0 s0 z0 = true
  · rwa [if_pos hr] at h
  · rw [if_neg hr] at h
    exact absurd h (by simp)

theorem scan_keep {base : String} {city zip_code state : Option String} {p : Nat}
    (hall3 : (truthy city && truthy zip_code && truthy state) = false)
    (hact : activeOrdinal city zip_code state = some p) :
    ∀ (rows : List Entry) (bm : Option String),
      scan_entries base city zip_code state rows bm (some p) = .noEarly bm := by
  intro rows
  induction rows with
  | nil => intro bm; simp [scan_entries]
  | cons e rest ih =>
    intro bm
    cases hc : entryCandidate e with
    | none => rw [scan_skip hc]; exact ih bm
    | some val =>
      obtain ⟨l, c0, s0, z0⟩ := val
      cases hs : scoredOrdinal city zip_code state c0 s0 z0 with
      | none => rw [scan_cons_scored_none hall3 hc hs]; exact ih bm
      | some q =>
        have hqp : q = p := by
          have hq := scoredOrdinal_active hs
          rw [hact] at hq
          exact (Option.some.injEq _ _ ▸ hq).symm
        subst hqp
        have hgt : bestPriorityGt (some q) q = false := by
          simp [bestPriorityGt]
        rw [scan_cons_scored_keep hall3 hc hs hgt]
        exact ih bm

theorem scan_pre_skip_scored {base : String} {city zip_code state : Option String}
    (hall3 : (truthy city && truthy zip_code && truthy state) = false) :
    ∀ (pre : List Entry), (∀ e ∈ pre, entryScored city zip_code state e = none) →
      ∀ (rest : List Entry) (bm : Option String) (bp : Option Nat),
        scan_entries base city zip_code state (pre ++ rest) bm bp =
          scan_entries base city zip_code state rest bm bp := by
  intro pre
  induction pre with
  | nil => intro _ rest bm bp; rfl
  | cons e pre ih =>
    intro h rest bm bp
    have he := h e (List.mem_cons_self e pre)
    have hrest : ∀ e ∈ pre, entryScored city zip_code state e = none :=
      fun e' he' => h e' (List.mem_cons_of_mem e he')
    rw [List.cons_append]
    cases hc : entryCandidate e with
    | none => rw [scan_skip hc]; exact ih hrest rest bm bp
    | some val =>
      obtain ⟨l, c0, s0, z0⟩ := val
      simp only [entryScored, hc] at he
      rw [scan_cons_scored_none hall3 hc he]
      exact ih hrest rest bm bp

theorem scan_pre_skip_all3 {base : String} {city zip_code state : Option String}
    (hall3 : (truthy city && truthy zip_code && truthy state) = true) :
    ∀ (pre : List Entry),
      (∀ e ∈ pre, entryMatchesAll3 city zip_code state e = false) →
      ∀ (rest : List Entry) (bm : Option String) (bp : Option Nat),
        scan_entries base city zip_code state (pre ++ rest) bm bp =
          scan_entries base city zip_code state rest bm bp := by
  intro pre
  induction pre with
  | nil => intro _ rest bm bp; rfl
  | cons e pre ih =>
    intro h rest bm bp
    have he := h e (List.mem_cons_self e pre)
    have hrest : ∀ e ∈ pre, entryMatchesAll3 city zip_code state e = false :=
      fun e' he' => h e' (List.mem_cons_of_mem e he')
    rw [List.cons_append, scan_cons_all3_nomatch hall3 he]
    exact ih hrest rest bm bp

theorem scan_early_requires_all3 {base : String}
    {city zip_code state : Option String} :
    ∀ (rows : List Entry) (bm : Option String) (bp : Option Nat) (u : String),
      scan_entries base city zip_code state rows bm bp = .early u →
      (truthy city && truthy zip_code && truthy state) = true ∧
        ∃ e ∈ rows, entryMatchesAll3 city zip_code state e = true := by
  intro rows
  induction rows with
  | nil => intro bm bp u h; simp [scan_entries] at h
  | cons e rest ih =>
    intro bm bp u h
    cases hc : entryCandidate e with
    | none =>
      rw [scan_skip hc] at h
      obtain ⟨h1, e1, he1, hm1⟩ := ih bm bp u h
      exact ⟨h1, e1, List.mem_cons_of_mem e he1, hm1⟩
    | some val =>
      obtain ⟨l, c0, s0, z0⟩ := val
      by_cases hall3 : (truthy city && truthy zip_code && truthy state) = true
      · by_cases hm : entryMatchesAll3 city zip_code state e = true
        · exact ⟨hall3, e, List.mem_cons_self e rest, hm⟩
        · have hm' : entryMatchesAll3 city zip_code state e = false := by
            simpa using hm
          rw [scan_cons_all3_nomatch hall3 hm'] at h
          obtain ⟨h1, e1, he1, hm1⟩ := ih bm bp u h
          exact ⟨h1, e1, List.mem_cons_of_mem e he1, hm1⟩
      · have hall3' : (truthy city && truthy zip_code && truthy state) = false := by
          simpa using hall3
        cases hs : scoredOrdinal city zip_code state c0 s0 z0 with
        | none =>
          rw [scan_cons_scored_none hall3' hc hs] at h
          obtain ⟨h1, e1, he1, hm1⟩ := ih bm bp u h
          exact ⟨h1, e1, List.mem_cons_of_mem e he1, hm1⟩
        | some q =>
          by_cases hgt : bestPriorityGt bp q = true
          · rw [scan_cons_scored_improve hall3' hc hs hgt] at h
            obtain ⟨h1, e1, he1, hm1⟩ := ih _ _ u h
            exact ⟨h1, e1, List.mem_cons_of_mem e he1, hm1⟩
          · have hgt' : bestPriorityGt bp q = false := by simpa using hgt
            rw [scan_cons_scored_keep hall3' hc hs hgt'] at h
            obtain ⟨h1, e1, he1, hm1⟩ := ih bm bp u h
            exact ⟨h1, e1, List.mem_cons_of_mem e he1, hm1⟩

theorem find_succ_early {site : Site} {st : String}
    {city zip_code state : Option String} {doc : Doc} {fuel : Nat} {u : String}
    (hval : st = "public" ∨ st = "private")
    (hscan : scan_entries (baseUrlFor st) city zip_code state (selFor st doc)
      none none = .early u) :
    find_school_url_by_location site st city zip_code state (fuel + 1) doc =
      .ok (some u) := by
  simp only [find_school_url_by_location, if_pos hval, hscan]

theorem find_succ_next {site : Site} {st : String}
    {city zip_code state : Option String} {doc : Doc} {fuel : Nat} {href : String}
    (hval : st = "public" ∨ st = "private")
    (hscan : scan_entries (baseUrlFor st) city zip_code state (selFor st doc)
      none none = .noEarly none)
    (hnext : doc.nextHref = some href) :
    find_school_url_by_location site st city zip_code state (fuel + 1) doc =
      (match fetch_html_content site (baseUrlFor st ++ href) with
       | .error e => .error e
       | .ok next_page_doc =>
         find_school_url_by_location site st city zip_code state fuel
           next_page_doc) := by
  simp only [find_school_url_by_location, if_pos hval, hscan, hnext]

theorem find_succ_stop {site : Site} {st : String}
    {city zip_code state : Option String} {doc : Doc} {fuel : Nat}
    {bm : Option String}
    (hval : st = "public" ∨ st = "private")
    (hscan : scan_entries (baseUrlFor st) city zip_code state (selFor st doc)
      none none = .noEarly bm)
    (hstop : doc.nextHref = none ∨ bm ≠ none) :
    find_school_url_by_location site st city zip_code state (fuel + 1) doc =
      .ok bm := by
  rcases hstop with hnone | hbm
  · simp only [find_school_url_by_location, if_pos hval, hscan, hnone]
  · cases bm with
    | none => exact absurd rfl hbm
    | some m =>
      cases hnext : doc.nextHref with
      | none => simp only [find_school_url_by_location, if_pos hval, hscan, hnext]
      | some href =>
        simp only [find_school_url_by_location, if_pos hval, hscan, hnext]

theorem get_nces_id_snd_of_not_public {site : Site} {fuel : Nat}
    {self : SchoolSearcher} {school_name : String}
    {city state zip_code : Option String}
    (hst : self.school_type ≠ "public") :
    (get_nces_id site fuel self school_name city state zip_code).2 = self := by
  unfold get_nces_id
  cases h1 : get_school_search_html site self.school_type school_name with
  | error e => simp [h1]
  | ok doc =>
    cases h2 : find_school_url_by_location site self.school_type city zip_code
        state fuel doc with
    | error e => simp [h1, h2]
    | ok school_url =>
      cases h3 : detail_step site self.school_type school_url with
      | raised e => simp [h1, h2, h3]
      | returned nces_code => simp [h1, h2, h3]
      | fallthrough => simp [h1, h2, h3, hst]

theorem get_nces_id_failed_of_not_public {site : Site} {fuel : Nat}
    {self : SchoolSearcher} {school_name : String}
    {city state zip_code : Option String} {doc : Doc} {school_url : Option String}
    (hst : self.school_type ≠ "public")
    (h1 : get_school_search_html site self.school_type school_name = .ok doc)
    (h2 : find_school_url_by_location site self.school_type city zip_code state
      fuel doc = .ok school_url)
    (h3 : detail_step site self.school_type school_url = .fallthrough) :
    get_nces_id site fuel self school_name city state zip_code =
      (.ok none, self) := by
  unfold get_nces_id
  simp [h1, h2, h3, hst]

theorem get_nces_id_public_retry {site : Site} {fuel : Nat}
    {self : SchoolSearcher} {school_name : String}
    {city state zip_code : Option String} {doc : Doc} {school_url : Option String}
    (hst : self.school_type = "public")
    (h1 : get_school_search_html site self.school_type school_name = .ok doc)
    (h2 : find_school_url_by_location site self.school_type city zip_code state
      fuel doc = .ok school_url)
    (h3 : detail_step site self.school_type school_url = .fallthrough) :
    get_nces_id site fuel self school_name city state zip_code =
      get_nces_id site fuel ⟨"private"⟩ school_name city state zip_code := by
  rw [hst] at h1 h2 h3
  rw [get_nces_id.eq_def]
  simp [h1, h2, h3, hst]

theorem detail_step_fallthrough_of {site : Site} {st : String}
    {school_url : Option String}
    (h : truthy school_url = false ∨
      ∃ d, fetch_html_content site (school_url.getD "") = .ok d ∧
        truthy (extract_nces_school_id st d) = false) :
    detail_step site st school_url = .fallthrough := by
  rcases h with h | ⟨d, hf, hex⟩
  · simp [detail_step, h]
  · cases ht : truthy school_url with
    | false => simp [detail_step, ht]
    | true => simp [detail_step, ht, hf, hex]

theorem scan_state_irrelevant {base : String} {city zip_code state : Option String}
    (hcity : truthy city = false) (hzip : truthy zip_code = true) :
    ∀ (rows : List Entry) (bm : Option String) (bp : Option Nat),
      scan_entries base city zip_code state rows bm bp =
        scan_entries base city zip_code none rows bm bp := by
  intro rows
  induction rows with
  | nil => intro bm bp; rfl
  | cons e rest ih =>
    intro bm bp
    cases hc : entryCandidate e with
    | none => rw [scan_skip hc, scan_skip hc]; exact ih bm bp
    | some val =>
      obtain ⟨l, c0, s0, z0⟩ := val
      have hall3L : (truthy city && truthy zip_code && truthy state) = false := by
        simp [hcity]
      have hall3R :
          (truthy city && truthy zip_code && truthy (none : Option String)) =
            false := by
        simp [hcity]
      have hso : scoredOrdinal city zip_code state c0 s0 z0 =
          scoredOrdinal city zip_code none c0 s0 z0 := by
        simp [scoredOrdinal, rowMatchesRule, activeOrdinal, hcity, hzip]
      cases hs : scoredOrdinal city zip_code none c0 s0 z0 with
      | none =>
        rw [scan_cons_scored_none hall3L hc (hso.trans hs),
          scan_cons_scored_none hall3R hc hs]
        exact ih bm bp
      | some p =>
        cases hgt : bestPriorityGt bp p with
        | true =>
          rw [scan_cons_scored_improve hall3L hc (hso.trans hs) hgt,
            scan_cons_scored_improve hall3R hc hs hgt]
          exact ih _ _
        | false =>
          rw [scan_cons_scored_keep hall3L hc (hso.trans hs) hgt,
            scan_cons_scored_keep hall3R hc hs hgt]
          exact ih bm bp

/-- C6 counterexample: with state and zip supplied but no city, the claim
says no row can match and the function returns `None` for every listing;
but on `docZipA` the `elif zip_code:` branch fires and the zip-matching
row's URL is returned. -/
theorem state_zip_without_city_claim_false :
    find_school_url_by_location siteNever "public" none (some "30039")
        (some "GA") 1 docZipA =
      .ok (some "https://nces.ed.gov/ccd/schoolsearch/a.asp") ∧
    find_school_url_by_location siteNever "public" none (some "30039")
        (some "GA") 1 docZipA ≠ .ok none := by
  have h : find_school_url_by_location siteNever "public" none (some "30039")
      (some "GA") 1 docZipA =
        .ok (some "https://nces.ed.gov/ccd/schoolsearch/a.asp") := rfl
  exact ⟨h, by rw [h]; simp⟩

/-- C6 amended: when state and zip_code are supplied (zip truthy) but city
is not, the call behaves exactly as a zip-only search — the state hint is
ignored, and zip-matching rows do become best-so-far with ordinal 3. -/
theorem state_zip_without_city_acts_as_zip_only :
    ∀ (site : Site) (st : String) (city zip_code state : Option String),
      truthy city = false → truthy zip_code = true →
      ∀ (fuel : Nat) (doc : Doc),
        find_school_url_by_location site st city zip_code state fuel doc =
          find_school_url_by_location site st city zip_code none fuel doc := by
  intro site st city zip_code state hcity hzip fuel
  induction fuel with
  | zero => intro doc; rfl
  | succ n ih =>
    intro doc
    by_cases hval : st = "public" ∨ st = "private"
    · have hscan := @scan_state_irrelevant (baseUrlFor st) city zip_code state
        hcity hzip (selFor st doc) none none
      cases hsc : scan_entries (baseUrlFor st) city zip_code none
          (selFor st doc) none none with
      | early u =>
        rw [find_succ_early hval (hscan.trans hsc), find_succ_early hval hsc]
      | noEarly bm =>
        cases hnext : doc.nextHref with
        | none =>
          rw [find_succ_stop hval (hscan.trans hsc) (Or.inl hnext),
            find_succ_stop hval hsc (Or.inl hnext)]
        | some href =>
          cases bm with
          | some m =>
            rw [find_succ_stop hval (hscan.trans hsc) (Or.inr (by simp)),
              find_succ_stop hval hsc (Or.inr (by simp))]
          | none =>
            rw [find_succ_next hval (hscan.trans hsc) hnext,
              find_succ_next hval hsc hnext]
            cases hf : fetch_html_content site (baseUrlFor st ++ href) with
            | error e => rfl
            | ok next_page_doc => exact ih next_page_doc
    · simp only [find_school_url_by_location, if_neg hval]

/-- Witness for the amended C6 at a concrete zip-matching listing. -/
theorem state_zip_without_city_acts_as_zip_only_witness :
    find_school_url_by_location siteNever "public" none (some "30039")
        (some "GA") 1 docZipA =
      find_school_url_by_location siteNever "public" none (some "30039")
        none 1 docZipA :=
  state_zip_without_city_acts_as_zip_only siteNever "public" none
    (some "30039") (some "GA") rfl (by decide) 1 docZipA

/-- C4: after a page scan that did not exit early, the next page is fetched
and recursed into (same hints) precisely when a next-page link exists and
no best-so-far was recorded; otherwise traversal stops with the current
best (or `None`). -/
theorem pagination_iff_next_link_and_no_best :
    ∀ (site : Site) (st : String) (city zip_code state : Option String)
      (doc : Doc) (fuel : Nat) (bm : Option String),
      st = "public" ∨ st = "private" →
      scan_entries (baseUrlFor st) city zip_code state (selFor st doc)
        none none = .noEarly bm →
      ((∀ href, doc.nextHref = some href → bm = none →
          find_school_url_by_location site st city zip_code state (fuel + 1)
              doc =
            (match fetch_html_content site (baseUrlFor st ++ href) with
             | .error e => .error e
             | .ok next_page_doc =>
               find_school_url_by_location site st city zip_code state fuel
                 next_page_doc)) ∧
       (doc.nextHref = none ∨ bm ≠ none →
          find_school_url_by_location site st city zip_code state (fuel + 1)
            doc = .ok bm)) := by
  intro site st city zip_code state doc fuel bm hval hscan
  constructor
  · intro href hnext hbm
    subst hbm
    exact find_succ_next hval hscan hnext
  · intro hstop
    exact find_succ_stop hval hscan hstop

/-- Witness for C4: on an empty page with a next link the resolver recurses
into the fetched second page; on an empty page without one it stops with
`None`. -/
theorem pagination_iff_next_link_and_no_best_witness :
    find_school_url_by_location siteEmpty "public" none none none 2 docNext =
      find_school_url_by_location siteEmpty "public" none none none 1
        emptyDoc ∧
    find_school_url_by_location siteEmpty "public" none none none 2 emptyDoc =
      .ok none :=
  ⟨(pagination_iff_next_link_and_no_best siteEmpty "public" none none none
      docNext 1 none (Or.inl rfl) rfl).1 "page2.asp" rfl rfl,
   (pagination_iff_next_link_and_no_best siteEmpty "public" none none none
      emptyDoc 1 none (Or.inl rfl) rfl).2 (Or.inl rfl)⟩

theorem pyNeg_one (l : List String) : pyNeg l 1 = (l.getLast?).getD "" := by
  unfold pyNeg
  rw [List.getD_eq_getElem?_getD, List.getLast?_eq_getElem?]

theorem pyNeg_two (l : List String) (h : 2 ≤ l.length) :
    pyNeg l 2 = (l.dropLast.getLast?).getD "" := by
  unfold pyNeg
  rw [List.getD_eq_getElem?_getD, List.getLast?_eq_getElem?,
    List.length_dropLast, List.getElem?_dropLast, if_pos (by omega)]
  have hs : l.length - 2 = l.length - 1 - 1 := by omega
  rw [hs]

theorem neg2_if (l : List String) :
    (if l.length > 1 then pyNeg l 2 else "") = (l.dropLast.getLast?).getD "" := by
  by_cases h : l.length > 1
  · rw [if_pos h, pyNeg_two l (by omega)]
  · rw [if_neg h]
    cases l with
    | nil => rfl
    | cons a t =>
      cases t with
      | nil => rfl
      | cons b t2 => simp at h

theorem neg1_if (l : List String) :
    (if l.length > 0 then pyNeg l 1 else "") = (l.getLast?).getD "" := by
  by_cases h : l.length > 0
  · rw [if_pos h, pyNeg_one]
  · rw [if_neg h]
    cases l with
    | nil => rfl
    | cons a t => simp at h

/-- C8: whenever the address text has at least two comma segments, the
derived city is the stripped second-to-last comma segment and the last
comma segment is whitespace-split with its second-to-last token as state
and its last token as zip (empty when those tokens do not exist); parsing
succeeds exactly when two comma segments exist, with no format validation,
so malformed addresses such as `"foo, bar"` yield garbage tokens
(`("foo", "", "bar")`) rather than an error. -/
theorem address_parsing_positional :
    ∀ s : String,
      ((parse_address s).isSome ↔ 2 ≤ (pySplitComma s).length) ∧
      (2 ≤ (pySplitComma s).length →
        parse_address s = some
          (pyStrip (((pySplitComma s).dropLast.getLast?).getD ""),
           ((pySplitWs (pyStrip
              (((pySplitComma s).getLast?).getD ""))).dropLast.getLast?).getD "",
           ((pySplitWs (pyStrip
              (((pySplitComma s).getLast?).getD ""))).getLast?).getD "")) ∧
      parse_address "foo, bar" = some ("foo", "", "bar") := by
  intro s
  have hmain : 2 ≤ (pySplitComma s).length → parse_address s = some
      (pyStrip (((pySplitComma s).dropLast.getLast?).getD ""),
       ((pySplitWs (pyStrip
          (((pySplitComma s).getLast?).getD ""))).dropLast.getLast?).getD "",
       ((pySplitWs (pyStrip
          (((pySplitComma s).getLast?).getD ""))).getLast?).getD "") := by
    intro h
    have hlt : ¬ (pySplitComma s).length < 2 := by omega
    have h1 : (pySplitComma s).length > 1 := by omega
    have h0 : (pySplitComma s).length > 0 := by omega
    simp only [parse_address, if_neg hlt, if_pos h1, if_pos h0]
    rw [pyNeg_two _ h, pyNeg_one (pySplitComma s)]
    rw [neg2_if, neg1_if]
  refine ⟨⟨fun hs => ?_, fun h => by rw [hmain h]; rfl⟩, hmain, by decide⟩
  by_contra hlen
  have hl2 : (pySplitComma s).length < 2 := by omega
  have hnone : parse_address s = none := by
    simp only [parse_address, if_pos hl2]
  rw [hnone] at hs
  simp at hs

/-- Witness for C8 at a well-formed address. -/
theorem address_parsing_positional_witness :
    parse_address "100 Main St, Snellville, GA 30039" =
      some ("Snellville", "GA", "30039") :=
  (address_parsing_positional "100 Main St, Snellville, GA 30039").2.1
    (by decide)

/-- C2: when an attempt fails — no truthy detail link, or a detail link
whose page yields no truthy identifier — a resolver whose active type is
`"public"` flips to `"private"` and retries the whole resolution once with
the same name and hints; a `"private"` resolver in the same situation
returns the NotFound value `None` as a normal (non-raised) result, so at
most two full attempts occur per call. -/
theorem public_to_private_fallback_then_notfound :
    ∀ (site : Site) (fuel : Nat) (school_name : String)
      (city state zip_code : Option String) (doc : Doc)
      (school_url : Option String),
      (get_school_search_html site "private" school_name = .ok doc →
        find_school_url_by_location site "private" city zip_code state fuel
          doc = .ok school_url →
        (truthy school_url = false ∨
          ∃ d, fetch_html_content site (school_url.getD "") = .ok d ∧
            truthy (extract_nces_school_id "private" d) = false) →
        get_nces_id site fuel ⟨"private"⟩ school_name city state zip_code =
          (.ok none, ⟨"private"⟩)) ∧
      (get_school_search_html site "public" school_name = .ok doc →
        find_school_url_by_location site "public" city zip_code state fuel
          doc = .ok school_url →
        (truthy school_url = false ∨
          ∃ d, fetch_html_content site (school_url.getD "") = .ok d ∧
            truthy (extract_nces_school_id "public" d) = false) →
        get_nces_id site fuel ⟨"public"⟩ school_name city state zip_code =
          get_nces_id site fuel ⟨"private"⟩ school_name city state zip_code) := by
  intro site fuel school_name city state zip_code doc school_url
  constructor
  · intro h1 h2 h3
    exact get_nces_id_failed_of_not_public (by decide) h1 h2
      (detail_step_fallthrough_of h3)
  · intro h1 h2 h3
    exact get_nces_id_public_retry rfl h1 h2 (detail_step_fallthrough_of h3)

/-- Witness for C2 on a site whose every listing is empty: the private
attempt fails and yields NotFound, and the public attempt equals the
retried private attempt. -/
theorem public_to_private_fallback_then_notfound_witness :
    get_nces_id siteEmpty 1 ⟨"private"⟩ "X" none none none =
      (.ok none, ⟨"private"⟩) ∧
    get_nces_id siteEmpty 1 ⟨"public"⟩ "X" none none none =
      get_nces_id siteEmpty 1 ⟨"private"⟩ "X" none none none :=
  ⟨(public_to_private_fallback_then_notfound siteEmpty 1 "X" none none none
      emptyDoc none).1 rfl rfl (Or.inl rfl),
   (public_to_private_fallback_then_notfound siteEmpty 1 "X" none none none
      emptyDoc none).2 rfl rfl (Or.inl rfl)⟩

/-- C7: a non-success response makes `fetch_html_content` raise, and the
failure propagates uncaught out of the whole `get_nces_id` call — whether
the failing fetch is the listing search, the winning candidate's detail
page (no Public→Private downgrade happens), or a next listing page — and
is never turned into the NotFound result. -/
theorem transport_failure_propagates :
    (∀ (site : Site) (full_url : String), (site full_url).status ≠ 200 →
      fetch_html_content site full_url =
        .error (.fetchFailed (site full_url).status)) ∧
    (∀ (site : Site) (fuel : Nat) (school_name : String)
       (city state zip_code : Option String),
       (site (public_search_url school_name)).status ≠ 200 →
       get_nces_id site fuel ⟨"public"⟩ school_name city state zip_code =
         (.error (.fetchFailed (site (public_search_url school_name)).status),
          ⟨"public"⟩)) ∧
    (∀ (site : Site) (fuel : Nat) (school_name : String)
       (city state zip_code : Option String) (doc : Doc) (school_url : String),
       get_school_search_html site "public" school_name = .ok doc →
       find_school_url_by_location site "public" city zip_code state fuel doc =
         .ok (some school_url) →
       school_url ≠ "" →
       (site school_url).status ≠ 200 →
       get_nces_id site fuel ⟨"public"⟩ school_name city state zip_code =
         (.error (.fetchFailed (site school_url).status), ⟨"public"⟩)) ∧
    (∀ (site : Site) (st : String) (city zip_code state : Option String)
       (doc : Doc) (fuel : Nat) (href : String),
       (st = "public" ∨ st = "private") →
       scan_entries (baseUrlFor st) city zip_code state (selFor st doc)
         none none = .noEarly none →
       doc.nextHref = some href →
       (site (baseUrlFor st ++ href)).status ≠ 200 →
       find_school_url_by_location site st city zip_code state (fuel + 1) doc =
         .error (.fetchFailed (site (baseUrlFor st ++ href)).status)) := by
  refine ⟨?_, ?_, ?_, ?_⟩
  · intro site full_url h
    simp [fetch_html_content, h]
  · intro site fuel school_name city state zip_code h
    have he : get_school_search_html site "public" school_name =
        .error (.fetchFailed (site (public_search_url school_name)).status) := by
      simp [get_school_search_html, fetch_html_content, h]
    unfold get_nces_id
    simp [he]
  · intro site fuel school_name city state zip_code doc school_url h1 h2 hne h
    have h3 : detail_step site "public" (some school_url) =
        .raised (.fetchFailed (site school_url).status) := by
      have ht : truthy (some school_url) = true := by
        simp [truthy, bne_iff_ne, hne]
      simp [detail_step, ht, fetch_html_content, h]
    unfold get_nces_id
    simp [h1, h2, h3]
  · intro site st city zip_code state doc fuel href hval hscan hnext h
    rw [find_succ_next hval hscan hnext]
    simp [fetch_html_content, h]

/-- Witness for C7: a failing search fetch, a failing detail fetch and a
failing next-page fetch each surface as the raised fetch error. -/
theorem transport_failure_propagates_witness :
    fetch_html_content siteNever "u" = .error (.fetchFailed 404) ∧
    get_nces_id siteNever 1 ⟨"public"⟩ "X" none none none =
      (.error (.fetchFailed 404), ⟨"public"⟩) ∧
    get_nces_id siteDetail404 1 ⟨"public"⟩ "Shiloh High School"
        (some "Snellville") (some "GA") (some "30039") =
      (.error (.fetchFailed 404), ⟨"public"⟩) ∧
    find_school_url_by_location siteNever "public" none none none 1 docNext =
      .error (.fetchFailed 404) :=
  ⟨transport_failure_propagates.1 siteNever "u" (by decide),
   transport_failure_propagates.2.1 siteNever 1 "X" none none none (by decide),
   transport_failure_propagates.2.2.1 siteDetail404 1 "Shiloh High School"
     (some "Snellville") (some "GA") (some "30039") docShiloh
     "https://nces.ed.gov/ccd/schoolsearch/school_detail.asp?Search=1&ID=130255001937"
     rfl rfl (by decide) (by decide),
   transport_failure_propagates.2.2.2 siteNever "public" none none none
     docNext 0 "page2.asp" (Or.inl rfl) rfl rfl (by decide)⟩

/-- C9: the only piece of per-instance state `get_nces_id` ever changes is
`school_type`, and the change persists in the returned state: a call either
leaves the state unchanged or (only when it started as `"public"`) leaves
it `"private"`; every call starting at `"private"` ends at `"private"` and
never falls back again; and a public call whose first attempt fails ends at
`"private"`. -/
theorem school_type_only_mutation_persists :
    (∀ (site : Site) (fuel : Nat) (school_name : String)
       (city state zip_code : Option String),
       (get_nces_id site fuel ⟨"private"⟩ school_name city state zip_code).2 =
         ⟨"private"⟩) ∧
    (∀ (site : Site) (fuel : Nat) (self : SchoolSearcher)
       (school_name : String) (city state zip_code : Option String),
       (get_nces_id site fuel self school_name city state zip_code).2 = self ∨
         (self.school_type = "public" ∧
           (get_nces_id site fuel self school_name city state zip_code).2 =
             ⟨"private"⟩)) ∧
    (∀ (site : Site) (fuel : Nat) (school_name : String)
       (city state zip_code : Option String) (doc : Doc)
       (school_url : Option String),
       get_school_search_html site "public" school_name = .ok doc →
       find_school_url_by_location site "public" city zip_code state fuel doc =
         .ok school_url →
       (truthy school_url = false ∨
         ∃ d, fetch_html_content site (school_url.getD "") = .ok d ∧
           truthy (extract_nces_school_id "public" d) = false) →
       (get_nces_id site fuel ⟨"public"⟩ school_name city state zip_code).2 =
         ⟨"private"⟩) := by
  refine ⟨?_, ?_, ?_⟩
  · intro site fuel school_name city state zip_code
    exact get_nces_id_snd_of_not_public (by decide)
  · intro site fuel self school_name city state zip_code
    by_cases h : self.school_type = "public"
    · unfold get_nces_id
      cases h1 : get_school_search_html site self.school_type school_name with
      | error e => left; simp [h1]
      | ok doc =>
        cases h2 : find_school_url_by_location site self.school_type city
            zip_code state fuel doc with
        | error e => left; simp [h1, h2]
        | ok school_url =>
          cases h3 : detail_step site self.school_type school_url with
          | raised e => left; simp [h1, h2, h3]
          | returned nces_code => left; simp [h1, h2, h3]
          | fallthrough =>
            right
            refine ⟨h, ?_⟩
            simp only [h1, h2, h3]
            rw [dif_pos h]
            exact get_nces_id_snd_of_not_public (by decide)
    · left; exact get_nces_id_snd_of_not_public h
  · intro site fuel school_name city state zip_code doc school_url h1 h2 h3
    rw [get_nces_id_public_retry rfl h1 h2 (detail_step_fallthrough_of h3)]
    exact get_nces_id_snd_of_not_public (by decide)

/-- Witness for C9: on empty listings a public call ends with the state
flipped to `"private"`. -/
theorem school_type_only_mutation_persists_witness :
    (get_nces_id siteEmpty 1 ⟨"public"⟩ "X" none none none).2 = ⟨"private"⟩ :=
  school_type_only_mutation_persists.2.2 siteEmpty 1 "X" none none none
    emptyDoc none rfl rfl (Or.inl rfl)

/-- C10: a resolver constructed with a `school_type` other than exactly
`"public"` or `"private"` (e.g. `"Public"`) never returns NotFound from
`get_nces_id` — every call raises the `UnboundLocalError` for the never
assigned `full_url` local of `get_school_search_html` — while the
constructor itself accepts any string without complaint. -/
theorem invalid_school_type_raises :
    (∀ (site : Site) (fuel : Nat) (self : SchoolSearcher)
       (school_name : String) (city state zip_code : Option String),
       self.school_type ≠ "public" → self.school_type ≠ "private" →
       get_nces_id site fuel self school_name city state zip_code =
         (.error (.unboundLocal "full_url"), self)) ∧
    (∀ t : String, (SchoolSearcher.mk t).school_type = t) := by
  constructor
  · intro site fuel self school_name city state zip_code h1 h2
    have he : get_school_search_html site self.school_type school_name =
        .error (.unboundLocal "full_url") := by
      simp [get_school_search_html, h1, h2]
    unfold get_nces_id
    simp [he]
  · intro t
    rfl

/-- Witness for C10 at the capitalised type `"Public"`. -/
theorem invalid_school_type_raises_witness :
    get_nces_id siteEmpty 1 ⟨"Public"⟩ "X" none none none =
      (.error (.unboundLocal "full_url"), ⟨"Public"⟩) :=
  invalid_school_type_raises.1 siteEmpty 1 ⟨"Public"⟩ "X" none none none
    (by decide) (by decide)

/-- C3: a candidate row lacking an anchor link, or lacking an address cell
at the expected column (`address_index = 1`), or whose stripped address
text splits into fewer than two comma-separated segments, is not a
candidate at all and is skipped by the scan — it can neither trigger the
all-three early exit nor become best-so-far, whatever the hints. -/
theorem malformed_rows_are_skipped :
    ∀ (base : String) (city zip_code state : Option String) (e : Entry)
      (rest : List Entry) (bm : Option String) (bp : Option Nat),
      (e.href = none ∨ e.tds.length ≤ 1 ∨
        (pySplitComma (pyStrip (e.tds.getD 1 ""))).length < 2) →
      entryCandidate e = none ∧
        scan_entries base city zip_code state (e :: rest) bm bp =
          scan_entries base city zip_code state rest bm bp := by
  intro base city zip_code state e rest bm bp h
  have hc : entryCandidate e = none := by
    rcases h with h | h | h
    · simp only [entryCandidate, h]
    · simp only [entryCandidate]
      cases hh : e.href with
      | none => rfl
      | some l => simp only [if_pos h]
    · simp only [entryCandidate]
      cases hh : e.href with
      | none => rfl
      | some l =>
        by_cases hlen : e.tds.length ≤ 1
        · simp only [if_pos hlen]
        · have hpa : parse_address (pyStrip (e.tds.getD 1 "")) = none := by
            simp only [parse_address, if_pos h]
          simp only [if_neg hlen, hpa]
  exact ⟨hc, scan_skip hc⟩

/-- Witness for C3 at a concrete row whose address has no comma. -/
theorem malformed_rows_are_skipped_witness :
    entryCandidate ⟨some "x.asp", ["N", "No Comma Address"]⟩ = none ∧
      scan_entries "b/" (some "c") none none
          [⟨some "x.asp", ["N", "No Comma Address"]⟩] none none =
        scan_entries "b/" (some "c") none none [] none none :=
  malformed_rows_are_skipped "b/" (some "c") none none
    ⟨some "x.asp", ["N", "No Comma Address"]⟩ [] none none
    (Or.inr (Or.inr (by decide)))

/-- C1: when city, state and zip are all supplied (truthy), the first
candidate row whose parsed city and state match case-insensitively and
whose zip matches exactly makes `find_school_url_by_location` return that
row's detail URL at once — for every site and every tail of the listing,
so no later row is scored and no next page is fetched — and an early exit
can arise from no other situation than a truthy all-three match. -/
theorem all_three_match_short_circuits :
    (∀ (site : Site) (st : String) (doc : Doc) (city state zip_code : String)
       (pre post : List Entry) (entry : Entry) (l c0 s0 z0 : String) (fuel : Nat),
       st = "public" ∨ st = "private" →
       city ≠ "" → state ≠ "" → zip_code ≠ "" →
       selFor st doc = pre ++ entry :: post →
       (∀ e ∈ pre,
         entryMatchesAll3 (some city) (some zip_code) (some state) e = false) →
       entryCandidate entry = some (l, c0, s0, z0) →
       entryMatchesAll3 (some city) (some zip_code) (some state) entry = true →
       find_school_url_by_location site st (some city) (some zip_code)
           (some state) (fuel + 1) doc = .ok (some (baseUrlFor st ++ l))) ∧
    (∀ (base : String) (city zip_code state : Option String)
       (rows : List Entry) (bm : Option String) (bp : Option Nat) (u : String),
       scan_entries base city zip_code state rows bm bp = .early u →
       (truthy city && truthy zip_code && truthy state) = true ∧
         ∃ e ∈ rows, entryMatchesAll3 city zip_code state e = true) := by
  constructor
  · intro site st doc city state zip_code pre post entry l c0 s0 z0 fuel hval
      hcity hstate hzip hrows hpre hcand hmatch
    have hall3 : (truthy (some city) && truthy (some zip_code) &&
        truthy (some state)) = true := by
      simp [truthy, bne_iff_ne, hcity, hzip, hstate]
    have hscan : scan_entries (baseUrlFor st) (some city) (some zip_code)
        (some state) (selFor st doc) none none =
          .early (baseUrlFor st ++ l) := by
      rw [hrows, scan_pre_skip_all3 hall3 pre hpre]
      exact scan_cons_all3_match hall3 hcand hmatch
    exact find_succ_early hval hscan
  · exact fun base city zip_code state rows bm bp u h =>
      scan_early_requires_all3 rows bm bp u h

/-- Witness for C1: the Shiloh row matches all three hints
(case-insensitively for city and state), so the resolver returns its URL
even on a site where every fetch would fail and despite a next-page link. -/
theorem all_three_match_short_circuits_witness :
    find_school_url_by_location siteNever "public" (some "snellville")
        (some "30039") (some "ga") 1 docShiloh =
      .ok (some
        "https://nces.ed.gov/ccd/schoolsearch/school_detail.asp?Search=1&ID=130255001937") :=
  all_three_match_short_circuits.1 siteNever "public" docShiloh
    "snellville" "ga" "30039" [] [] rowShiloh
    "school_detail.asp?Search=1&ID=130255001937" "Snellville" "GA" "30039" 0
    (Or.inl rfl) (by decide) (by decide) (by decide) rfl (by simp)
    (by decide) (by decide)

/-- C5: during one page scan only one best-so-far is kept, and a recorded
best of ordinal `p` is replaced only by a strictly lower ordinal; since one
hint rule (state+city=2, zip=3, city=4, state=5) is active per call, the
first row matching it is the one kept: any later matching rows (equal
ordinal) never replace it, and a row matching at the current ordinal leaves
the state untouched. -/
theorem best_match_replaced_only_by_strictly_lower_ordinal :
    ∀ (base : String) (city zip_code state : Option String)
      (pre post rest : List Entry) (entry e2 : Entry) (l c0 s0 z0 : String)
      (p : Nat) (bm : Option String),
      (truthy city && truthy zip_code && truthy state) = false →
      entryCandidate entry = some (l, c0, s0, z0) →
      scoredOrdinal city zip_code state c0 s0 z0 = some p →
      (∀ e ∈ pre, entryScored city zip_code state e = none) →
      scan_entries base city zip_code state (pre ++ entry :: post) none none =
          .noEarly (some (base ++ l)) ∧
        (entryScored city zip_code state e2 = some p →
          scan_entries base city zip_code state (e2 :: rest) bm (some p) =
            scan_entries base city zip_code state rest bm (some p)) := by
  intro base city zip_code state pre post rest entry e2 l c0 s0 z0 p bm
    hall3 hcand hord hpre
  have hact := scoredOrdinal_active hord
  constructor
  · rw [scan_pre_skip_scored hall3 pre hpre]
    rw [scan_cons_scored_improve hall3 hcand hord
      (rfl : bestPriorityGt none p = true)]
    exact scan_keep hall3 hact post (some (base ++ l))
  · intro he2
    cases hc2 : entryCandidate e2 with
    | none => exact scan_skip hc2
    | some val =>
      obtain ⟨l2, c2, s2, z2⟩ := val
      simp only [entryScored, hc2] at he2
      exact scan_cons_scored_keep hall3 hc2 he2 (by simp [bestPriorityGt])

/-- Witness for C5: with a zip-only hint, row A is recorded at ordinal 3
and the later equally-matching row B does not replace it. -/
theorem best_match_replaced_only_by_strictly_lower_ordinal_witness :
    scan_entries "https://nces.ed.gov/ccd/schoolsearch/" none (some "30039")
        none [rowZipA, rowZipB] none none =
      .noEarly (some "https://nces.ed.gov/ccd/schoolsearch/a.asp") ∧
    scan_entries "https://nces.ed.gov/ccd/schoolsearch/" none (some "30039")
        none [rowZipB] (some "https://nces.ed.gov/ccd/schoolsearch/a.asp")
        (some 3) =
      scan_entries "https://nces.ed.gov/ccd/schoolsearch/" none (some "30039")
        none [] (some "https://nces.ed.gov/ccd/schoolsearch/a.asp") (some 3) :=
  ⟨(best_match_replaced_only_by_strictly_lower_ordinal
      "https://nces.ed.gov/ccd/schoolsearch/" none (some "30039") none
      [] [rowZipB] [] rowZipA rowZipB "a.asp" "Atown" "GA" "30039" 3
      (some "https://nces.ed.gov/ccd/schoolsearch/a.asp")
      (by decide) (by decide) (by decide) (by simp)).1,
   (best_match_replaced_only_by_strictly_lower_ordinal
      "https://nces.ed.gov/ccd/schoolsearch/" none (some "30039") none
      [] [rowZipB] [] rowZipA rowZipB "a.asp" "Atown" "GA" "30039" 3
      (some "https://nces.ed.gov/ccd/schoolsearch/a.asp")
      (by decide) (by decide) (by decide) (by simp)).2 (by decide)⟩
